import Mathlib

/-!
Verification development for the pynessus client (src/pynessus/nessus.py).

The file shallowly embeds the parts of the client that the checked
properties are about, in three layers that mirror the source:

* the resource registry layer: the `Nessus` state (the collection fields
  initialised in `Nessus.__init__`), the per-kind `load_*` methods and the
  lazy-access properties (`scans`, `scanners`, `users`);
* the session/transport layer: `_request` with its stale-connection
  handler, `login`, `logout` and the `server_version` probe, driven by a
  finite script of transport outcomes;
* the API envelope layer: `_api_request` over parsed JSON values.

Python exceptions are modelled as `Except` results; stateful methods
return the result together with the post state, so that state left behind
by a raising call stays observable.  Machine-level concerns (sockets, TLS)
are abstracted into scripted outcomes, as the checked claims only depend
on which outcome the transport reports.
-/

namespace Pynessus

/-- Python exceptions raised by the client, by source site.
`apiError` is `NessusAPIError`; `unsupportedVersion` is the
`Exception` raised by `login` for a non-6.x server; `statusError` is the
`Exception(response["status"])` raise in `login`; `httpError` is the
`raise Exception(response.read())` for a non-200 status; `connRefused`
is the `Exception` raised on `ECONNREFUSED`; `sockError` is a re-raised
other socket error; `responseNotReady` is httplib's `ResponseNotReady`
escaping from the `getresponse()` call that sits outside the
`try` block of `_request`; `typeError` / `keyError` / `indexError` are
the interpreter-level errors of the corresponding Python operations;
`scriptEnd` is a model artifact flagging that the scripted transport ran
out of entries. -/
inductive PyErr where
  | apiError (msg : String)
  | unsupportedVersion
  | statusError (s : String)
  | httpError (body : String)
  | connRefused
  | sockError (e : Int)
  | responseNotReady
  | typeError
  | keyError
  | indexError
  | scriptEnd
deriving Repr, DecidableEq

/-! ## Resource instances

One structure per resource kind, holding exactly the attributes the
loaders in `nessus.py` assign.  The model classes under `models/` are not
part of src (only `models/tag.py` is), so attribute defaults follow the
Tag model's pattern and the spec: reference fields start unset (`none`).
-/

/-- Scanner resource: the fields assigned by `load_scanners`. -/
structure Scanner where
  id : Int
  uuid : String
  name : String
  type : String
  status : String
  scan_count : Int
  engine_version : String
  platform : String
  loaded_plugin_set : String
  registration_code : String
  owner : String
deriving Repr, DecidableEq

/-- Template resource: the fields assigned by `load_templates`.
Modelled from the spec: models/template.py is absent from src; fields are
a plain attribute bag whose unassigned fields remain unset, so every
field that a hydrator may leave untouched is an `Option`. -/
structure Template where
  uuid : String
  title : Option String := none
  name : Option String := none
  description : Option String := none
  more_info : Option String := none
  cloud_only : Option Bool := none
  subscription_only : Option Bool := none
deriving Repr, DecidableEq

/-- Folder resource: the fields assigned by `load_folders`.
Modelled from the spec: models/folder.py is absent from src; defaults
follow the Tag attribute-bag pattern (unset fields stay `none`). -/
structure Folder where
  id : Int
  type : Option String := none
  custom : Option Int := none
  default_tag : Option Int := none
  name : Option String := none
  unread_count : Option Int := none
deriving Repr, DecidableEq

/-- Policy resource: the fields assigned by `load_policies`. -/
structure Policy where
  id : Int
  template_uuid : String
  name : String
  owner : String
  creation_date : Int
  no_target : Bool
  visibility : String
  shared : Bool
  user_permissions : Int
  last_modification_date : Int
deriving Repr, DecidableEq

/-- User resource: the fields assigned by `load_users`.
Modelled from the spec for the bag itself (models/user.py absent from
src); field set and types follow the `load_users` assignments. -/
structure User where
  id : Int
  username : String
  name : String
  type : String
  permissions : Int
  last_login : Int
deriving Repr, DecidableEq

/-- Agent resource: the fields assigned by `load_agents`. -/
structure Agent where
  distros : String
  id : Int
  ip : String
  last_scanned : Int
  name : String
  platform : String
  token : String
  uuid : String
  scanner_id : Int
deriving Repr, DecidableEq

/-- Agent group resource: the fields assigned by `load_agentgroups`. -/
structure AgentGroup where
  id : Int
  name : String
  owner_id : Int
  owner : String
  shared : Bool
  user_permissions : Int
  creation_date : Int
  last_modification_date : Int
deriving Repr, DecidableEq

/-- Scan resource: the fields assigned by `load_scans`.  The `template`
and `folder` fields are populated by the hydrator with freshly
constructed instances; `owner` is only assigned when a loaded user
matches, so it is an `Option` that defaults to unset. -/
structure Scan where
  status : String
  name : String
  read : Bool
  last_modification_date : Int
  creation_date : Int
  user_permissions : Int
  shared : Bool
  id : Int
  template : Option Template := none
  folder : Option Folder := none
  owner : Option User := none
deriving Repr, DecidableEq

/-- Mail configuration. Modelled from the spec: models/mail.py is absent
from src; the spec treats it as an opaque field bag. -/
structure MailCfg where
  settings : List (String × String) := []
deriving Repr, DecidableEq

/-- Proxy configuration. Modelled from the spec: models/proxy.py is
absent from src; the spec treats it as an opaque field bag. -/
structure ProxyCfg where
  settings : List (String × String) := []
deriving Repr, DecidableEq

/-- Server properties record: the response fields that `load_properties`
copies into the eponymous `_`-prefixed attributes of the client. The
model stores the record as one bundle where the source spreads it over
individual attributes; the claims only depend on whether the bundle is
set. -/
structure ServerProps where
  loaded_plugin_set : String
  server_uuid : String
  expiration : Int
  nessus_ui_version : String
  nessus_type : String
  notifications : List String
  capabilities : String
  plugin_set : String
  idle_timeout : Int
  scanner_boottime : Int
  server_version : String
deriving Repr, DecidableEq

/-! ## Raw records

One structure per resource kind for the parsed JSON records the loaders
iterate over, holding exactly the keys the loaders read.  A key that the
loader guards with `if k in record` is an `Option`. -/

/-- Raw scanner record as read by `load_scanners`. -/
structure RawScanner where
  id : Int
  uuid : String
  name : String
  type : String
  status : String
  scan_count : Int
  engine_version : String
  platform : String
  loaded_plugin_set : String
  registration_code : String
  owner : String
deriving Repr, DecidableEq

/-- Raw template record as read by `load_templates`; `more_info` is
guarded by `if "more_info" in t` in the source. -/
structure RawTemplate where
  uuid : String
  title : String
  name : String
  desc : String
  more_info : Option String
  cloud_only : Bool
  subscription_only : Bool
deriving Repr, DecidableEq

/-- Raw folder record as read by `load_folders`; `type` and
`unread_count` are guarded by `in` checks in the source. -/
structure RawFolder where
  id : Int
  type : Option String
  custom : Int
  default_tag : Int
  name : String
  unread_count : Option Int
deriving Repr, DecidableEq

/-- Raw policy record as read by `load_policies`; `no_target` is guarded
by an `in` check in the source. -/
structure RawPolicy where
  id : Int
  template_uuid : String
  name : String
  owner : String
  creation_date : Int
  no_target : Option Bool
  visibility : String
  shared : Bool
  user_permissions : Int
  last_modification_date : Int
deriving Repr, DecidableEq

/-- Raw user record as read by `load_users`. -/
structure RawUser where
  lastlogin : Int
  permissions : Int
  type : String
  name : String
  username : String
  id : Int
deriving Repr, DecidableEq

/-- Raw agent record as read by `load_agents`. -/
structure RawAgent where
  distros : String
  id : Int
  ip : String
  last_scanned : Int
  name : String
  platform : String
  token : String
  uuid : String
deriving Repr, DecidableEq

/-- Raw agent-group record as read by `load_agentgroups`. -/
structure RawAgentGroup where
  id : Int
  name : String
  owner_id : Int
  owner : String
  shared : Bool
  user_permissions : Int
  creation_date : Int
  last_modification_date : Int
deriving Repr, DecidableEq

/-- Raw scan record as read by `load_scans`. -/
structure RawScan where
  status : String
  name : String
  read : Bool
  last_modification_date : Int
  creation_date : Int
  user_permissions : Int
  shared : Bool
  id : Int
  uuid : String
  folder_id : Int
  owner_id : Int
deriving Repr, DecidableEq

/-! ## Hydrators -/

/-- Hydration of one scanner record (`load_scanners` loop body). -/
def hydrateScanner (s : RawScanner) : Scanner :=
  { id := s.id, uuid := s.uuid, name := s.name, type := s.type,
    status := s.status, scan_count := s.scan_count,
    engine_version := s.engine_version, platform := s.platform,
    loaded_plugin_set := s.loaded_plugin_set,
    registration_code := s.registration_code, owner := s.owner }

/-- Hydration of one template record (`load_templates` loop body);
`description` is taken from the record's `desc` key and `more_info`
falls back to `None` when absent. -/
def hydrateTemplate (t : RawTemplate) : Template :=
  { uuid := t.uuid, title := some t.title, name := some t.name,
    description := some t.desc, more_info := t.more_info,
    cloud_only := some t.cloud_only,
    subscription_only := some t.subscription_only }

/-- Hydration of one folder record (`load_folders` loop body);
`type` defaults to `"local"` and `unread_count` to `0` when the record
omits them. -/
def hydrateFolder (r : RawFolder) : Folder :=
  { id := r.id, type := some (r.type.getD "local"),
    custom := some r.custom, default_tag := some r.default_tag,
    name := some r.name, unread_count := some (r.unread_count.getD 0) }

/-- Hydration of one policy record (`load_policies` loop body);
`no_target` defaults to `False` when the record omits it. -/
def hydratePolicy (r : RawPolicy) : Policy :=
  { id := r.id, template_uuid := r.template_uuid, name := r.name,
    owner := r.owner, creation_date := r.creation_date,
    no_target := r.no_target.getD false, visibility := r.visibility,
    shared := r.shared, user_permissions := r.user_permissions,
    last_modification_date := r.last_modification_date }

/-- Hydration of one user record (`load_users` loop body). -/
def hydrateUser (r : RawUser) : User :=
  { id := r.id, username := r.username, name := r.name, type := r.type,
    permissions := r.permissions, last_login := r.lastlogin }

/-- Hydration of one agent record (`load_agents` loop body); the
`scanner_id` back-reference is the id of the scanner whose endpoint the
record came from. -/
def hydrateAgent (scannerId : Int) (a : RawAgent) : Agent :=
  { distros := a.distros, id := a.id, ip := a.ip,
    last_scanned := a.last_scanned, name := a.name,
    platform := a.platform, token := a.token, uuid := a.uuid,
    scanner_id := scannerId }

/-- Hydration of one agent-group record (`load_agentgroups` loop body). -/
def hydrateAgentGroup (g : RawAgentGroup) : AgentGroup :=
  { id := g.id, name := g.name, owner_id := g.owner_id,
    owner := g.owner, shared := g.shared,
    user_permissions := g.user_permissions,
    creation_date := g.creation_date,
    last_modification_date := g.last_modification_date }

/-- The owner-resolution loop of `load_scans`:
`for user in self.users: if user.id == s["owner_id"]: scan.owner = user`.
A left fold keeps the last matching user, exactly as repeated
assignment in the loop does. -/
def resolveOwner (users : List User) (ownerId : Int) : Option User :=
  users.foldl (fun acc u => if u.id == ownerId then some u else acc) none

/-- Hydration of one scan record (`load_scans` loop body): plain fields
are copied, `template` and `folder` are freshly constructed instances
carrying only the record's `uuid` / `folder_id`, and `owner` is resolved
against the given users collection. -/
def hydrateScan (users : List User) (s : RawScan) : Scan :=
  { status := s.status, name := s.name, read := s.read,
    last_modification_date := s.last_modification_date,
    creation_date := s.creation_date,
    user_permissions := s.user_permissions, shared := s.shared,
    id := s.id,
    template := some { uuid := s.uuid },
    folder := some { id := s.folder_id },
    owner := resolveOwner users s.owner_id }

/-! ## Registry state and loaders

Collections that the lazy properties guard with `is None` are modelled
as `Option (List _)` so that the Python distinction between `None` and
the empty list is visible; `__init__` initialises them to empty lists
(`some []`).  Collections guarded with `len(...)` are plain lists. -/

/-- The registry part of the `Nessus` client state: the collection
fields initialised in `Nessus.__init__` that the checked claims use. -/
structure Nessus where
  scanners : List Scanner
  templates : List Template
  folders : List Folder
  policies : List Policy
  agents : List Agent
  agentgroups : List AgentGroup
  scans : Option (List Scan)
  users : Option (List User)
  mail : Option MailCfg
  proxy : Option ProxyCfg
  props : Option ServerProps
deriving Repr, DecidableEq

/-- The registry state produced by `Nessus.__init__`: every collection
is an empty Python list (`some []` for the `Option`-modelled fields) and
the mail/proxy/properties fields are unset. -/
def nessusInit : Nessus :=
  { scanners := [], templates := [], folders := [], policies := [],
    agents := [], agentgroups := [], scans := some [], users := some [],
    mail := none, proxy := none, props := none }

/-- Outcome of the `_api_request` call a loader makes, at the typed
level of that loader's endpoint: `err` is a raised `NessusAPIError`,
`nocontent` an empty response body (`_api_request` returned `None`),
`keyAbsent` a parsed object without the collection key, `keyNull` the
collection key mapped to `null`, and `items` the collection key mapped
to a list of records. -/
inductive LoadResp (α : Type) where
  | err (msg : String)
  | nocontent
  | keyAbsent
  | keyNull
  | items (xs : List α)
deriving Repr, DecidableEq

/-- The `load_scanners` method.  The source appends each hydrated record
to `self._scanners` and never resets the list, so a repeated load
accumulates.  A `nocontent` response makes the `"scanners" in response`
membership test a `TypeError` (membership on `None`), and a `null`
collection value makes the `for` loop a `TypeError`. -/
def load_scanners (st : Nessus) (resp : LoadResp RawScanner) :
    Except PyErr Bool × Nessus :=
  match resp with
  | .err m => (.error (.apiError m), st)
  | .nocontent => (.error .typeError, st)
  | .keyAbsent => (.ok true, st)
  | .keyNull => (.error .typeError, st)
  | .items raws =>
      (.ok true, { st with scanners := st.scanners ++ raws.map hydrateScanner })

/-- The `load_templates` method.  The source resets `self._templates`
to `[]` right after the API call, before the `"templates" in response`
test, so the reset is visible even when the key is absent or the
membership test fails with `TypeError`. -/
def load_templates (st : Nessus) (resp : LoadResp RawTemplate) :
    Except PyErr Bool × Nessus :=
  match resp with
  | .err m => (.error (.apiError m), st)
  | .nocontent => (.error .typeError, { st with templates := [] })
  | .keyAbsent => (.ok true, { st with templates := [] })
  | .keyNull => (.error .typeError, { st with templates := [] })
  | .items raws =>
      (.ok true, { st with templates := raws.map hydrateTemplate })

/-- The `load_folders` method.  The reset of `self._folders` happens
inside the `if "folders" in response` branch; a missing key returns
`False` without touching the collection. -/
def load_folders (st : Nessus) (resp : LoadResp RawFolder) :
    Except PyErr Bool × Nessus :=
  match resp with
  | .err m => (.error (.apiError m), st)
  | .nocontent => (.error .typeError, st)
  | .keyAbsent => (.ok false, st)
  | .keyNull => (.error .typeError, { st with folders := [] })
  | .items raws =>
      (.ok true, { st with folders := raws.map hydrateFolder })

/-- The `load_policies` method.  The collection key is additionally
null-guarded (`response["policies"] is not None`), and the reset of
`self._policies` happens inside that guard. -/
def load_policies (st : Nessus) (resp : LoadResp RawPolicy) :
    Except PyErr Bool × Nessus :=
  match resp with
  | .err m => (.error (.apiError m), st)
  | .nocontent => (.error .typeError, st)
  | .keyAbsent => (.ok true, st)
  | .keyNull => (.ok true, st)
  | .items raws =>
      (.ok true, { st with policies := raws.map hydratePolicy })

/-- The `load_users` method.  Hydrated users are collected in a local
list that is assigned to `self._users` only when the `"users"` key is
present; a missing key returns `False`. -/
def load_users (st : Nessus) (resp : LoadResp RawUser) :
    Except PyErr Bool × Nessus :=
  match resp with
  | .err m => (.error (.apiError m), st)
  | .nocontent => (.error .typeError, st)
  | .keyAbsent => (.ok false, st)
  | .keyNull => (.error .typeError, st)
  | .items raws =>
      (.ok true, { st with users := some (raws.map hydrateUser) })

/-- The `users` lazy property: `load_users` runs only when
`self._users is None`; otherwise the stored value is returned as is.
The returned value is the Python value of `self._users` after the
possible load (still `None` when a triggered load returned `False`
without storing).  The final component records whether a fetch was
issued. -/
def users_prop (st : Nessus) (resp : LoadResp RawUser) :
    Except PyErr (Option (List User)) × Nessus × Bool :=
  match st.users with
  | some us => (.ok (some us), st, false)
  | none =>
      match load_users st resp with
      | (.error e, st') => (.error e, st', true)
      | (.ok _, st') => (.ok st'.users, st', true)

/-- The record loop of `load_scans`: for each raw record the source
evaluates the `self.users` property (which may itself fetch), hydrates
the record against the resulting users value and appends it to
`self._scans`.  Iterating over a `None` users value is a `TypeError`. -/
def load_scans_go (uresp : LoadResp RawUser) :
    Nessus → List RawScan → Except PyErr Bool × Nessus
  | st, [] => (.ok true, st)
  | st, s :: rest =>
      match users_prop st uresp with
      | (.error e, st', _) => (.error e, st')
      | (.ok none, st', _) => (.error .typeError, st')
      | (.ok (some us), st', _) =>
          load_scans_go uresp
            { st' with scans := some (st'.scans.getD [] ++ [hydrateScan us s]) }
            rest

/-- The `load_scans` method.  The source resets `self._scans` to `[]`
right after the API call, before the (null-guarded) `"scans" in
response` test, then runs the hydration loop. -/
def load_scans (st : Nessus) (resp : LoadResp RawScan)
    (uresp : LoadResp RawUser) : Except PyErr Bool × Nessus :=
  match resp with
  | .err m => (.error (.apiError m), st)
  | .nocontent => (.error .typeError, { st with scans := some [] })
  | .keyAbsent => (.ok true, { st with scans := some [] })
  | .keyNull => (.ok true, { st with scans := some [] })
  | .items raws => load_scans_go uresp { st with scans := some [] } raws

/-- The per-scanner loop of `load_agents`: one API call per loaded
scanner, appending that scanner's hydrated agents to `self._agents`;
the collection key is null-guarded, so an absent or null key skips the
scanner.  One scripted response is consumed per scanner. -/
def load_agents_go :
    Nessus → List Scanner → List (LoadResp RawAgent) →
    Except PyErr Bool × Nessus
  | st, [], _ => (.ok true, st)
  | st, _ :: _, [] => (.error .scriptEnd, st)
  | st, sc :: scs, r :: rs =>
      match r with
      | .err m => (.error (.apiError m), st)
      | .nocontent => (.error .typeError, st)
      | .keyAbsent => load_agents_go st scs rs
      | .keyNull => load_agents_go st scs rs
      | .items raws =>
          load_agents_go
            { st with agents := st.agents ++ raws.map (hydrateAgent sc.id) }
            scs rs

/-- The `load_agents` method: iterates the loaded scanners, fetching
`/scanners/{id}/agents` for each. -/
def load_agents (st : Nessus) (resps : List (LoadResp RawAgent)) :
    Except PyErr Bool × Nessus :=
  load_agents_go st st.scanners resps

/-- The per-scanner loop of `load_agentgroups` (key `"groups"`,
null-guarded), appending to `self._agentgroups`. -/
def load_agentgroups_go :
    Nessus → List Scanner → List (LoadResp RawAgentGroup) →
    Except PyErr Bool × Nessus
  | st, [], _ => (.ok true, st)
  | st, _ :: _, [] => (.error .scriptEnd, st)
  | st, _ :: scs, r :: rs =>
      match r with
      | .err m => (.error (.apiError m), st)
      | .nocontent => (.error .typeError, st)
      | .keyAbsent => load_agentgroups_go st scs rs
      | .keyNull => load_agentgroups_go st scs rs
      | .items raws =>
          load_agentgroups_go
            { st with agentgroups := st.agentgroups ++ raws.map hydrateAgentGroup }
            scs rs

/-- The `load_agentgroups` method: iterates the loaded scanners,
fetching `/scanners/{id}/agent-groups` for each. -/
def load_agentgroups (st : Nessus) (resps : List (LoadResp RawAgentGroup)) :
    Except PyErr Bool × Nessus :=
  load_agentgroups_go st st.scanners resps

/-- Outcome of the `load_properties` API call: the source checks
`if response is not None` and returns `False` on `None`, otherwise
copies the response fields and returns `True`. -/
inductive PropsResp where
  | err (msg : String)
  | nocontent
  | ok (p : ServerProps)
deriving Repr, DecidableEq

/-- The `load_properties` method. -/
def load_properties (st : Nessus) (resp : PropsResp) :
    Except PyErr Bool × Nessus :=
  match resp with
  | .err m => (.error (.apiError m), st)
  | .nocontent => (.ok false, st)
  | .ok p => (.ok true, { st with props := some p })

/-- Outcome of a mail/proxy sub-load.  Modelled from the spec:
models/mail.py and models/proxy.py are absent from src; per the spec the
load fetches the configuration and reports success, and a raised
`NessusAPIError` propagates. -/
inductive CfgResp (α : Type) where
  | err (msg : String)
  | ok (cfg : α)
  | failed
deriving Repr, DecidableEq

/-- The `load_mail` method.  Modelled from the spec: the source does
`self._mail = self.Mail()` and then `return self._mail.load()` where
`Mail.load` (absent from src) fetches the mail settings into the fresh
instance and returns success. -/
def load_mail (st : Nessus) (resp : CfgResp MailCfg) :
    Except PyErr Bool × Nessus :=
  match resp with
  | .err m => (.error (.apiError m), { st with mail := some {} })
  | .ok cfg => (.ok true, { st with mail := some cfg })
  | .failed => (.ok false, { st with mail := some {} })

/-- The `load_proxy` method.  Modelled from the spec, exactly as
`load_mail` but for the proxy settings. -/
def load_proxy (st : Nessus) (resp : CfgResp ProxyCfg) :
    Except PyErr Bool × Nessus :=
  match resp with
  | .err m => (.error (.apiError m), { st with proxy := some {} })
  | .ok cfg => (.ok true, { st with proxy := some cfg })
  | .failed => (.ok false, { st with proxy := some {} })

/-! ## Lazy properties -/

/-- The `scans` lazy property: `load_scans` runs only when
`self._scans is None`; the stored value is returned otherwise.  The
final component records whether a fetch was issued. -/
def scans_prop (st : Nessus) (resp : LoadResp RawScan)
    (uresp : LoadResp RawUser) :
    Except PyErr (Option (List Scan)) × Nessus × Bool :=
  match st.scans with
  | some l => (.ok (some l), st, false)
  | none =>
      match load_scans st resp uresp with
      | (.error e, st') => (.error e, st', true)
      | (.ok _, st') => (.ok st'.scans, st', true)

/-- The `scanners` lazy property: `load_scanners` runs whenever
`len(self._scanners)` is zero — including when the stored collection is
a successfully loaded empty one.  The final component records whether a
fetch was issued. -/
def scanners_prop (st : Nessus) (resp : LoadResp RawScanner) :
    Except PyErr (List Scanner) × Nessus × Bool :=
  if st.scanners.length == 0 then
    match load_scanners st resp with
    | (.error e, st') => (.error e, st', true)
    | (.ok _, st') => (.ok st'.scanners, st', true)
  else
    (.ok st.scanners, st, false)

/-! ## Top-level load -/

/-- The bundle of scripted API outcomes consumed by one `load()` call,
one entry per sub-load in the order the source issues them. -/
structure LoadBundle where
  propsResp : PropsResp
  mailResp : CfgResp MailCfg
  proxyResp : CfgResp ProxyCfg
  scannersResp : LoadResp RawScanner
  agentsResps : List (LoadResp RawAgent)
  agentgroupsResps : List (LoadResp RawAgentGroup)
  policiesResp : LoadResp RawPolicy
  scansResp : LoadResp RawScan
  scansUsersResp : LoadResp RawUser
  foldersResp : LoadResp RawFolder
  templatesResp : LoadResp RawTemplate
  usersResp : LoadResp RawUser

/-- Sequencing of one sub-load after the accumulated result, modelling
`success &= self.load_x()`: the next sub-load runs whenever the
accumulated computation has not raised (Python `&=` does not
short-circuit), and a raised exception aborts the chain while keeping
the state mutated so far. -/
def loadStep (k : Nessus → Except PyErr Bool × Nessus)
    (acc : Except PyErr Bool × Nessus) : Except PyErr Bool × Nessus :=
  match acc with
  | (.error e, st) => (.error e, st)
  | (.ok b, st) =>
      match k st with
      | (.error e, st') => (.error e, st')
      | (.ok b', st') => (.ok (b && b'), st')

/-- The top-level `load` method: the eleven sub-loads in source order,
combined with `success &= ...`. -/
def load (st : Nessus) (R : LoadBundle) : Except PyErr Bool × Nessus :=
  loadStep (load_users · R.usersResp) <|
  loadStep (load_templates · R.templatesResp) <|
  loadStep (load_folders · R.foldersResp) <|
  loadStep (load_scans · R.scansResp R.scansUsersResp) <|
  loadStep (load_policies · R.policiesResp) <|
  loadStep (load_agentgroups · R.agentgroupsResps) <|
  loadStep (load_agents · R.agentsResps) <|
  loadStep (load_scanners · R.scannersResp) <|
  loadStep (load_proxy · R.proxyResp) <|
  loadStep (load_mail · R.mailResp) <|
  load_properties st R.propsResp

/-! ## Session and transport layer

The transport is driven by a finite script: one `SendOutcome` per
`connection.request(...)` call, and one `HttpResp` per response the
server delivers.  `pending` counts responses that have been requested
but not yet consumed by `getresponse()`; httplib raises
`ResponseNotReady` when `getresponse()` is called with none pending. -/

/-- Outcome of one `connection.request(...)` call in `_request`:
`sent` reaches the server; `stale` raises `CannotSendRequest` or
`ImproperConnectionState` (the two handled stale-connection
conditions); `refused` is a socket error with `ECONNREFUSED`;
`sockErr` is any other socket error, re-raised unchanged. -/
inductive SendOutcome where
  | sent
  | stale
  | refused
  | sockErr (e : Int)
deriving Repr, DecidableEq

/-- One HTTP response: status and body. -/
structure HttpResp where
  status : Nat
  body : String
deriving Repr, DecidableEq

/-- Authentication credentials with the token assigned on login,
mirroring the `User` model instance held in `self._user`.  Modelled
from the spec for the bag itself (models/user.py absent from src). -/
structure Cred where
  username : String
  password : String
  token : Option String
deriving Repr, DecidableEq

/-- The session part of the client state: the `self._headers` dict
(association list, insertion ordered like a Python dict) and
`self._user`. -/
structure Session where
  headers : List (String × String)
  user : Option Cred
deriving Repr, DecidableEq

/-- The headers dict set up in `__init__`. -/
def sessionInit : Session :=
  { headers := [("Content-type", "application/json"),
                ("Accept", "application/json")],
    user := none }

/-- Python substring containment `needle in hay` on character lists. -/
def hasSubstr : List Char → List Char → Bool
  | needle, [] => needle.isEmpty
  | needle, c :: rest => needle.isPrefixOf (c :: rest) || hasSubstr needle rest

/-- Python dict assignment `d[k] = v` on an association list: replace
the value in place if the key exists, else append. -/
def setHeader (hs : List (String × String)) (k v : String) :
    List (String × String) :=
  match hs with
  | [] => [(k, v)]
  | (k', v') :: rest =>
      if k' == k then (k, v) :: rest else (k', v') :: setHeader rest k v

/-- Wire-side state threaded through `_request`: the remaining response
script, the count of requested-but-unread responses on the current
connection, the number of re-authentications performed by the
stale-connection handler, and the trace of header sets passed to
`connection.request`. -/
structure WireState where
  resps : List HttpResp
  pending : Nat
  relogins : Nat
  sentHeaders : List (List (String × String))
deriving Repr, DecidableEq

/-- The `self._connection.getresponse()` / status check / read tail of
`_request`: with no pending response httplib raises `ResponseNotReady`
(this call sits outside the `try` block, so the error is not handled);
otherwise the next scripted response is consumed, its body returned on
status 200 and raised as an `Exception` otherwise. -/
def getresponse (w : WireState) : Except PyErr String × WireState :=
  if w.pending == 0 then
    (.error .responseNotReady, w)
  else
    match w.resps with
    | [] => (.error .scriptEnd, w)
    | r :: rs =>
        if r.status == 200 then
          (.ok r.body, { w with resps := rs, pending := w.pending - 1 })
        else
          (.error (.httpError r.body), { w with resps := rs, pending := w.pending - 1 })

/-- The `_request` method, by recursion on the send script.  On `sent`
the request reaches the server and the tail of the method runs
`getresponse`.  On `stale` the handler replaces the connection
(`pending` drops to zero), re-authenticates via `self.login(self._user)`
(abstracted here to the `relogins` counter: the login exchange uses its
own request/response pair and leaves the fresh connection idle), and
recursively re-issues the call — whose return value the source
discards before falling through to the `getresponse()` call after the
`try` block.  On `refused` the source raises its own `Exception`; any
other socket error is re-raised. -/
def pyRequest (sess : Session) (hdrOverride : Option (List (String × String))) :
    List SendOutcome → WireState → Except PyErr String × WireState
  | [], w => (.error .scriptEnd, w)
  | o :: rest, w =>
      match o with
      | .sent =>
          getresponse
            { w with pending := w.pending + 1,
                     sentHeaders := w.sentHeaders ++ [hdrOverride.getD sess.headers] }
      | .stale =>
          let w1 : WireState :=
            { w with pending := 0, relogins := w.relogins + 1 }
          match pyRequest sess (some sess.headers) rest w1 with
          | (.error e, w2) => (.error e, w2)
          | (.ok _, w2) => getresponse w2
      | .refused => (.error .connRefused, w)
      | .sockErr e => (.error (.sockError e), w)

/-- The `logout` method: `self._request("DELETE", "/session", [])`
followed by `return True`.  No session field is assigned. -/
def logout (sess : Session) (sends : List SendOutcome) (w : WireState) :
    Except PyErr Bool × Session × WireState :=
  match pyRequest sess none sends w with
  | (.error e, w') => (.error e, sess, w')
  | (.ok _, w') => (.ok true, sess, w')

/-! ## Version probe and login -/

/-- Transport-level inputs of the `server_version` probe: the results
of `GET /nessus6.html` and `GET /html5.html`. -/
structure ProbeEnv where
  nessus6Page : Except PyErr String
  html5Page : Except PyErr String

/-- The `server_version` property: probe only while
`self._server_version is None`.  When the `/nessus6.html` body does not
contain `"404 File not found"` the version is `"6.x"`; otherwise a
successful `/html5.html` fetch yields `"5.x"` (the source compares the
`_request` result with `None`, but `_request` never returns `None`, so
the `"unknown"` branch is unreachable).  Returns the version and the
updated cached field. -/
def server_version (cached : Option String) (env : ProbeEnv) :
    Except PyErr String × Option String :=
  match cached with
  | some v => (.ok v, some v)
  | none =>
      match env.nessus6Page with
      | .error e => (.error e, none)
      | .ok page =>
          if hasSubstr "404 File not found".data page.data = false then
            (.ok "6.x", some "6.x")
          else
            match env.html5Page with
            | .error e => (.error e, none)
            | .ok _ => (.ok "5.x", some "5.x")

/-- Outcome of the `POST /session` call made by `login`, at the typed
level: a raised `NessusAPIError`, an empty body (`login` returns
`False`), a body carrying a `status` key (`login` raises
`Exception(response["status"])`), a body carrying the token, or a body
with neither (`response['token']` raises `KeyError`). -/
inductive SessionResp where
  | apiErr (msg : String)
  | nocontent
  | withStatus (s : String)
  | withToken (t : String)
  | missingToken
deriving Repr, DecidableEq

/-- Result of a `login` run: the returned value or raised error, the
session state after the call, the cached `_server_version` after the
probe, and whether the `POST /session` call was issued at all. -/
structure LoginResult where
  outcome : Except PyErr Bool
  sess : Session
  cachedVersion : Option String
  sessionCalled : Bool

/-- The `login` method: evaluate `self.server_version` (probing if not
cached), raise the unsupported-version `Exception` when its first
character is not `'6'` — before any `/session` call — and otherwise
post the credentials, raising on a `status` response and storing the
token into the user and the `X-Cookie` header on success. -/
def login (sess : Session) (cached : Option String) (env : ProbeEnv)
    (creds : Cred) (resp : SessionResp) : LoginResult :=
  match server_version cached env with
  | (.error e, c') =>
      { outcome := .error e, sess := sess, cachedVersion := c',
        sessionCalled := false }
  | (.ok v, c') =>
      match v.data with
      | [] =>
          { outcome := .error .indexError, sess := sess,
            cachedVersion := c', sessionCalled := false }
      | ch :: _ =>
          if ch ≠ '6' then
            { outcome := .error .unsupportedVersion, sess := sess,
              cachedVersion := c', sessionCalled := false }
          else
            match resp with
            | .apiErr m =>
                { outcome := .error (.apiError m), sess := sess,
                  cachedVersion := c', sessionCalled := true }
            | .nocontent =>
                { outcome := .ok false, sess := sess,
                  cachedVersion := c', sessionCalled := true }
            | .withStatus s =>
                { outcome := .error (.statusError s), sess := sess,
                  cachedVersion := c', sessionCalled := true }
            | .withToken t =>
                { outcome := .ok true,
                  sess := { headers := setHeader sess.headers "X-Cookie" ("token=" ++ t),
                            user := some { creds with token := some t } },
                  cachedVersion := c', sessionCalled := true }
            | .missingToken =>
                { outcome := .error .keyError, sess := sess,
                  cachedVersion := c', sessionCalled := true }

/-! ## API envelope -/

/-- Parsed JSON values, as produced by `json.loads`. -/
inductive JVal where
  | null
  | bool (b : Bool)
  | num (n : Int)
  | str (s : String)
  | arr (xs : List JVal)
  | obj (fs : List (String × JVal))

/-- First-match field lookup on a parsed JSON object (Python dict keys
are unique after parsing). -/
def lookupField (fs : List (String × JVal)) (k : String) : Option JVal :=
  match fs with
  | [] => none
  | (k', v) :: rest => if k' == k then some v else lookupField rest k

/-- Result of `_api_request`: `ok (some v)` is a returned parsed value,
`ok none` the `None` returned for an empty response body, `err m` a
raised `NessusAPIError(response["error"])`, and `typeErr` the
interpreter `TypeError` from applying `in` or indexing to an
incompatible value. -/
inductive ApiOut where
  | ok (v : Option JVal)
  | err (msg : JVal)
  | typeErr

/-- The `_api_request` envelope over the parsed body of the underlying
`_request` call: an empty body returns `None`; a body parsing to `None`
skips the error check (`response is not None` fails) and is returned;
a parsed object raises `NessusAPIError` exactly when it has an
`"error"` key; Python `in` on a list tests membership of the string
`"error"` and on a string tests for a substring, and in both cases the
subsequent `response["error"]` indexing is a `TypeError`; `in` on a
number or boolean is itself a `TypeError`. -/
def api_request (body : Option JVal) : ApiOut :=
  match body with
  | none => .ok none
  | some v =>
      match v with
      | .null => .ok (some .null)
      | .obj fs =>
          match lookupField fs "error" with
          | some m => .err m
          | none => .ok (some (.obj fs))
      | .arr xs =>
          if xs.any (fun x => match x with | .str s => s == "error" | _ => false) then
            .typeErr
          else
            .ok (some (.arr xs))
      | .str s =>
          if hasSubstr "error".data s.data then .typeErr else .ok (some (.str s))
      | .bool _ => .typeErr
      | .num _ => .typeErr

/-- Header dict lookup, mirroring reading a key out of `self._headers`. -/
def getHeader (hs : List (String × String)) (k : String) : Option String :=
  match hs with
  | [] => none
  | (k', v) :: rest => if k' == k then some v else getHeader rest k

/-! ## Sample data

Concrete records used to instantiate the theorems below. -/

/-- Sample scanner record. -/
def rawScannerEx1 : RawScanner :=
  { id := 1, uuid := "a", name := "scannerA", type := "local",
    status := "on", scan_count := 0, engine_version := "6.0",
    platform := "linux", loaded_plugin_set := "x",
    registration_code := "rc", owner := "admin" }

/-- A second sample scanner record, distinct from the first. -/
def rawScannerEx2 : RawScanner :=
  { rawScannerEx1 with id := 2, name := "scannerB" }

/-- The first sample scanner, hydrated. -/
def scannerEx1 : Scanner := hydrateScanner rawScannerEx1

/-- The second sample scanner, hydrated. -/
def scannerEx2 : Scanner := hydrateScanner rawScannerEx2

/-- Sample agent record. -/
def rawAgentEx : RawAgent :=
  { distros := "deb", id := 10, ip := "10.0.0.1", last_scanned := 0,
    name := "agent1", platform := "linux", token := "t", uuid := "au" }

/-- Sample agent-group record. -/
def rawAgentGroupEx : RawAgentGroup :=
  { id := 3, name := "g", owner_id := 7, owner := "admin",
    shared := false, user_permissions := 16, creation_date := 0,
    last_modification_date := 0 }

/-- Sample policy record. -/
def rawPolicyEx : RawPolicy :=
  { id := 4, template_uuid := "tu", name := "pol", owner := "admin",
    creation_date := 0, no_target := none, visibility := "private",
    shared := false, user_permissions := 16, last_modification_date := 0 }

/-- Sample folder record. -/
def rawFolderEx : RawFolder :=
  { id := 5, type := some "custom", custom := 1, default_tag := 0,
    name := "My Scans", unread_count := none }

/-- Sample template record. -/
def rawTemplateEx : RawTemplate :=
  { uuid := "tpl", title := "Basic", name := "basic", desc := "d",
    more_info := none, cloud_only := false, subscription_only := false }

/-- Sample user record with id 7. -/
def rawUserEx : RawUser :=
  { lastlogin := 1, permissions := 64, type := "local", name := "Alice",
    username := "alice", id := 7 }

/-- The sample user, hydrated: id 7. -/
def userEx7 : User := hydrateUser rawUserEx

/-- Sample scan record referencing folder 5 and owner 7. -/
def rawScanEx : RawScan :=
  { status := "completed", name := "scan1", read := false,
    last_modification_date := 3, creation_date := 2,
    user_permissions := 128, shared := false, id := 11, uuid := "tpl",
    folder_id := 5, owner_id := 7 }

/-- Sample server-properties record. -/
def propsEx : ServerProps :=
  { loaded_plugin_set := "lp", server_uuid := "su", expiration := 0,
    nessus_ui_version := "6.10", nessus_type := "Nessus Home",
    notifications := [], capabilities := "c", plugin_set := "ps",
    idle_timeout := 30, scanner_boottime := 0, server_version := "6.10.1" }

/-- Sample mail configuration. -/
def mailEx : MailCfg := { settings := [("smtp_host", "mail.local")] }

/-- Sample proxy configuration. -/
def proxyEx : ProxyCfg := { settings := [("proxy_host", "off")] }

/-- Registry state with the sample user loaded. -/
def stWithUser : Nessus := { nessusInit with users := some [userEx7] }

/-- Registry state with two scanners loaded. -/
def stTwoScanners : Nessus :=
  { nessusInit with scanners := [scannerEx1, scannerEx2] }

/-- Sample credentials. -/
def credsEx : Cred := { username := "admin", password := "secret", token := none }

/-- Session state after a successful login that received token `tok`. -/
def sessLoggedIn : Session :=
  (login sessionInit (some "6.x")
    { nessus6Page := .ok "", html5Page := .ok "" } credsEx
    (.withToken "tok")).sess

/-- A probe environment whose server answers `/nessus6.html` with a 404
page and serves `/html5.html`, so the probed version is `"5.x"`. -/
def env5 : ProbeEnv :=
  { nessus6Page := .ok "404 File not found", html5Page := .ok "html5" }

/-- All-success response bundle for one `load()` run from the initial
state: one scanner, hence one agent call and one agent-group call. -/
def bundleEx : LoadBundle :=
  { propsResp := .ok propsEx, mailResp := .ok mailEx,
    proxyResp := .ok proxyEx, scannersResp := .items [rawScannerEx1],
    agentsResps := [.items [rawAgentEx]],
    agentgroupsResps := [.items [rawAgentGroupEx]],
    policiesResp := .items [rawPolicyEx], scansResp := .items [rawScanEx],
    scansUsersResp := .items [], foldersResp := .items [rawFolderEx],
    templatesResp := .items [rawTemplateEx], usersResp := .items [rawUserEx] }

/-! ## Helper lemmas -/

/-- The owner-resolution fold keeps either a member of the traversed
list whose id matches, or the initial accumulator. -/
theorem resolveOwner_aux (oid : Int) :
    ∀ (us : List User) (init : Option User) (u : User),
      us.foldl (fun acc x => if x.id == oid then some x else acc) init = some u →
      (u ∈ us ∧ u.id = oid) ∨ init = some u := by
  intro us
  induction us with
  | nil => intro init u h; exact Or.inr h
  | cons x rest ih =>
      intro init u h
      rw [List.foldl_cons] at h
      rcases ih _ u h with h1 | h2
      · exact Or.inl ⟨List.mem_cons_of_mem _ h1.1, h1.2⟩
      · split at h2
        next hx => cases h2; exact Or.inl ⟨List.mem_cons_self _ _, by simpa using hx⟩
        next hx => exact Or.inr h2

/-- A resolved owner is a member of the users collection and carries
the requested id. -/
theorem resolveOwner_mem (us : List User) (oid : Int) (u : User)
    (h : resolveOwner us oid = some u) : u ∈ us ∧ u.id = oid := by
  rcases resolveOwner_aux oid us none u h with h1 | h2
  · exact h1
  · exact Option.noConfusion h2

/-- The hydration loop of `load_scans` run from a state whose users
collection is already stored: every record is hydrated against that
collection and appended in order. -/
theorem load_scans_go_spec (ur : LoadResp RawUser) (us : List User) :
    ∀ (raws : List RawScan) (st : Nessus) (l : List Scan),
      st.users = some us → st.scans = some l →
      load_scans_go ur st raws
        = (.ok true, { st with scans := some (l ++ raws.map (hydrateScan us)) }) := by
  intro raws
  induction raws with
  | nil =>
      intro st l hu hs
      simp only [load_scans_go, List.map_nil, List.append_nil]
      rw [← hs]
  | cons s rest ih =>
      intro st l hu hs
      have hstep : users_prop st ur = (.ok (some us), st, false) := by
        simp [users_prop, hu]
      have hone : load_scans_go ur st (s :: rest)
          = load_scans_go ur { st with scans := some (l ++ [hydrateScan us s]) } rest := by
        rw [load_scans_go, hstep]
        simp [hs]
      rw [hone, ih { st with scans := some (l ++ [hydrateScan us s]) }
            (l ++ [hydrateScan us s]) hu rfl]
      simp [List.append_assoc]

/-- The items branch of `load_scans` from a state whose users
collection is already stored: the collection is replaced by the
hydration of the payload. -/
theorem load_scans_items (st : Nessus) (us : List User) (raws : List RawScan)
    (ur : LoadResp RawUser) (hu : st.users = some us) :
    load_scans st (.items raws) ur
      = (.ok true, { st with scans := some (raws.map (hydrateScan us)) }) := by
  show load_scans_go ur { st with scans := some [] } raws = _
  rw [load_scans_go_spec ur us raws { st with scans := some [] } [] hu rfl]
  simp

/-- A successful `getresponse` consumes one pending response. -/
theorem getresponse_pending :
    ∀ (w : WireState) (b : String) (w2 : WireState),
      getresponse w = (.ok b, w2) → w2.pending = w.pending - 1 := by
  intro w b w2 h
  unfold getresponse at h
  by_cases h0 : (w.pending == 0) = true
  · rw [if_pos h0] at h
    exact absurd h (by simp)
  · rw [if_neg h0] at h
    rcases hr : w.resps with _ | ⟨r, rs⟩
    · simp only [hr] at h
      exact absurd h (by simp)
    · simp only [hr] at h
      by_cases hst : (r.status == 200) = true
      · rw [if_pos hst, Prod.mk.injEq] at h
        rw [← h.2]
      · rw [if_neg hst] at h
        exact absurd h (by simp)

/-- A `pyRequest` run that starts with no pending response and returns
a body leaves no pending response behind. -/
theorem pyRequest_ok_pending (sess : Session) :
    ∀ (sends : List SendOutcome) (o : Option (List (String × String)))
      (w : WireState), w.pending = 0 →
      ∀ b w2, pyRequest sess o sends w = (.ok b, w2) → w2.pending = 0 := by
  intro sends
  induction sends with
  | nil => intro o w hw b w2 h; simp [pyRequest] at h
  | cons hd rest ih =>
      intro o w hw b w2 h
      cases hd with
      | sent =>
          rw [pyRequest] at h
          rw [getresponse_pending _ b w2 h]
          simp [hw]
      | stale =>
          rw [pyRequest] at h
          rcases hin : pyRequest sess (some sess.headers) rest
              { w with pending := 0, relogins := w.relogins + 1 }
            with ⟨rin, win⟩
          cases rin with
          | error e => rw [hin] at h; simp at h
          | ok b' =>
              rw [hin] at h
              have hp : win.pending = 0 := ih _ _ rfl b' win hin
              simp only [getresponse, hp] at h
              simp at h
      | refused => simp [pyRequest] at h
      | sockErr e => simp [pyRequest] at h

/-- Version strings actually produced by a cache-less
`server_version` probe. -/
theorem server_version_values (env : ProbeEnv) (v : String) (c : Option String)
    (h : server_version none env = (.ok v, c)) : v = "6.x" ∨ v = "5.x" := by
  rcases henv : env.nessus6Page with e | page
  · simp [server_version, henv] at h
  · simp only [server_version, henv] at h
    by_cases hsub : hasSubstr "404 File not found".data page.data = false
    · rw [if_pos hsub, Prod.mk.injEq] at h
      exact Or.inl (Except.ok.inj h.1).symm
    · rw [if_neg hsub] at h
      rcases henv2 : env.html5Page with e2 | page2
      · simp [henv2] at h
      · simp only [henv2] at h
        rw [Prod.mk.injEq] at h
        exact Or.inr (Except.ok.inj h.1).symm

/-! ## Claim theorems -/

/-- C4 counterexample: on a freshly constructed registry — whose scans
collection has never been populated — a read access of the `scans`
property issues no fetch at all (final component `false`) and simply
returns the initial empty list, because the lazy guard tests
`self._scans is None` while `__init__` sets the field to `[]`.  The
claim predicts that a read access on a never-populated collection
triggers a load. -/
theorem lazy_load_init_counterexample :
    scans_prop nessusInit (.items [rawScanEx]) (.items [])
      = (.ok (some []), nessusInit, false) := rfl

/-- C4 amended: collections guarded by an `is None` test (scans shown
here) never trigger a lazy load after `__init__`, which initialises the
field to an empty list — a read returns the empty list without
fetching; collections guarded by an emptiness test (scanners shown
here) fetch exactly when the stored list is empty, and a successful
load that stores zero records leaves the state unchanged, so the next
read fetches again. -/
theorem lazy_load_guard_semantics :
    (∀ (r : LoadResp RawScan) (ur : LoadResp RawUser),
        scans_prop nessusInit r ur = (.ok (some []), nessusInit, false))
    ∧ (∀ (st : Nessus) (r : LoadResp RawScanner),
        (scanners_prop st r).2.2 = (st.scanners.length == 0))
    ∧ (∀ st : Nessus, load_scanners st (.items []) = (.ok true, st)) := by
  refine ⟨fun r ur => rfl, ?_, ?_⟩
  · intro st r
    by_cases h : st.scanners.length == 0
    · rcases hres : load_scanners st r with ⟨res, st'⟩
      cases res <;> simp [scanners_prop, h, hres]
    · simp [scanners_prop, h]
  · intro st
    simp [load_scanners]

/-- C5 counterexample: hydrating a scan record with `folder_id = 5`
against a registry holding no folders still populates the scan's
`folder` reference — with a freshly constructed `Folder` instance
carrying only that id — while the registry's folders collection stays
empty, so the reference is set to an instance the registry does not
hold.  The claim requires every reference set at hydration time to
resolve to an instance present in the corresponding collection, or to
remain unset. -/
theorem scan_folder_reference_counterexample :
    ((load_scans nessusInit (.items [rawScanEx]) (.items [])).2.scans
        = some [hydrateScan [] rawScanEx])
    ∧ (hydrateScan [] rawScanEx).folder = some { id := 5 }
    ∧ (load_scans nessusInit (.items [rawScanEx]) (.items [])).2.folders = [] :=
  ⟨rfl, rfl, rfl⟩

/-- C5 amended: hydration treats the reference fields of a scan
differently.  The `owner` reference honours the invariant — it is only
ever set to a user held in the users collection it was resolved
against, carrying the record's `owner_id`, and remains unset
otherwise.  The `folder` and `template` references are instead always
populated with freshly constructed instances carrying only the raw
record's `folder_id` / `uuid`, without any lookup in the registry's
folders or templates collections. -/
theorem hydration_reference_semantics :
    ∀ (us : List User) (s : RawScan),
      (∀ u, (hydrateScan us s).owner = some u → u ∈ us ∧ u.id = s.owner_id)
      ∧ (hydrateScan us s).folder = some { id := s.folder_id }
      ∧ (hydrateScan us s).template = some { uuid := s.uuid } :=
  fun us s =>
    ⟨fun u h => resolveOwner_mem us s.owner_id u h, rfl, rfl⟩

/-- C5 witness: instantiating the amended statement at the sample user
and scan record: the resolved owner is a member of the collection it
was resolved against and carries the record's owner id. -/
theorem hydration_reference_semantics_witness :
    userEx7 ∈ [userEx7] ∧ userEx7.id = rawScanEx.owner_id :=
  (hydration_reference_semantics [userEx7] rawScanEx).1 userEx7 rfl

/-- C6: when the users collection holds `us` at the time of
`load_scans` (it was loaded — or left initial — before the scans load),
the load succeeds and replaces the scans collection with the payload
hydrated against exactly `us`; an owner reference is set only to a
member of `us` whose id equals the record's `owner_id` (so a match
requires the users load to have run first); and when users were never
loaded (`us = []`, the `__init__` value), every owner stays unset and
no error is raised. -/
theorem load_scans_owner_resolution :
    ∀ (st : Nessus) (us : List User) (raws : List RawScan)
      (ur : LoadResp RawUser),
      st.users = some us →
      (load_scans st (.items raws) ur
          = (.ok true, { st with scans := some (raws.map (hydrateScan us)) }))
      ∧ (∀ s u, (hydrateScan us s).owner = some u → u ∈ us ∧ u.id = s.owner_id)
      ∧ (us = [] → ∀ s : RawScan, (hydrateScan us s).owner = none) := by
  intro st us raws ur hu
  refine ⟨load_scans_items st us raws ur hu,
          fun s u h => resolveOwner_mem us s.owner_id u h, ?_⟩
  rintro rfl s
  rfl

/-- C6 witness: loading one scan record with `owner_id = 7` into a
registry whose users collection was loaded with the single user of
id 7 resolves the scan's owner to that user. -/
theorem load_scans_owner_resolution_witness :
    load_scans stWithUser (.items [rawScanEx]) (.items [])
      = (.ok true, { stWithUser with scans := some [hydrateScan [userEx7] rawScanEx] })
    ∧ (hydrateScan [userEx7] rawScanEx).owner = some userEx7 :=
  ⟨(load_scans_owner_resolution stWithUser [userEx7] [rawScanEx] (.items []) rfl).1,
   rfl⟩

/-- C8: the `_api_request` envelope over an object response body raises
`NessusAPIError` carrying the value under the `"error"` key exactly
when that key is present, returns the parsed object unchanged
otherwise, and returns the `None` no-content marker for an empty
response body. -/
theorem api_request_envelope :
    (∀ (fs : List (String × JVal)) (msg : JVal),
        api_request (some (.obj fs)) = .err msg ↔ lookupField fs "error" = some msg)
    ∧ (∀ fs : List (String × JVal), lookupField fs "error" = none →
        api_request (some (.obj fs)) = .ok (some (.obj fs)))
    ∧ api_request none = .ok none := by
  refine ⟨?_, ?_, rfl⟩
  · intro fs msg
    cases hl : lookupField fs "error" with
    | none => simp [api_request, hl]
    | some m => simp [api_request, hl, eq_comm]
  · intro fs hl
    simp [api_request, hl]

/-- C8 witness: a body `{"error": "invalid token"}` raises the API
error carrying the message, and a body `{"scans": []}` comes back as
data. -/
theorem api_request_envelope_witness :
    api_request (some (.obj [("error", .str "invalid token")]))
      = .err (.str "invalid token")
    ∧ api_request (some (.obj [("scans", .arr [])]))
      = .ok (some (.obj [("scans", .arr [])])) :=
  ⟨(api_request_envelope.1 [("error", .str "invalid token")] (.str "invalid token")).mpr rfl,
   api_request_envelope.2.1 [("scans", .arr [])] rfl⟩

/-- C9: `login` evaluates the `server_version` probe first, and
whenever the probed version is not the supported `"6.x"` family it
raises the unsupported-server error with the `POST /session` call never
issued — the session call happens only after the version check
passes. -/
theorem login_rejects_unsupported_server :
    ∀ (sess : Session) (env : ProbeEnv) (creds : Cred) (resp : SessionResp)
      (v : String) (c : Option String),
      server_version none env = (.ok v, c) →
      v ≠ "6.x" →
      (login sess none env creds resp).outcome = .error .unsupportedVersion
      ∧ (login sess none env creds resp).sessionCalled = false := by
  intro sess env creds resp v c h hv
  rcases server_version_values env v c h with rfl | rfl
  · exact absurd rfl hv
  · have hdata : ("5.x" : String).data = ['5', '.', 'x'] := rfl
    constructor <;> simp [login, h, hdata]

/-- C9 witness: against a server answering the `/nessus6.html` probe
with a 404 page (version `"5.x"`), `login` fails with the
unsupported-server error and no session call is attempted. -/
theorem login_rejects_unsupported_server_witness :
    (login sessionInit none env5 credsEx .nocontent).outcome
        = .error .unsupportedVersion
    ∧ (login sessionInit none env5 credsEx .nocontent).sessionCalled = false :=
  login_rejects_unsupported_server sessionInit env5 credsEx .nocontent
    "5.x" (some "5.x") rfl (by decide)

/-- C1 counterexample: loading the scanners kind twice — first with a
payload containing scanner 1, then with a payload containing only
scanner 2 — leaves the collection holding both records, not the
hydrated form of only the second payload, because `load_scanners`
appends without resetting the list.  The claim asserts that every
successful load replaces the entire collection for its kind. -/
theorem load_scanners_accumulates_counterexample :
    ((load_scanners (load_scanners nessusInit (.items [rawScannerEx1])).2
        (.items [rawScannerEx2])).2).scanners
      ≠ [hydrateScanner rawScannerEx2] := by decide

/-- C1 amended: re-loading semantics depend on the resource kind.  For
scans (and the other kinds whose loaders reset their collection —
templates, folders, policies, users) a second load leaves the
collection equal to the hydration of only the second payload; for
scanners (and likewise agents and agent groups) each load appends to
the existing collection, so records accumulate across calls. -/
theorem reload_semantics_per_kind :
    ∀ (st : Nessus) (us : List User) (r1 r2 : List RawScan)
      (ur ur' : LoadResp RawUser) (q1 q2 : List RawScanner),
      st.users = some us →
      (((load_scans (load_scans st (.items r1) ur).2 (.items r2) ur').2).scans
          = some (r2.map (hydrateScan us)))
      ∧ (((load_scanners (load_scanners st (.items q1)).2 (.items q2)).2).scanners
          = st.scanners ++ q1.map hydrateScanner ++ q2.map hydrateScanner) := by
  intro st us r1 r2 ur ur' q1 q2 hu
  constructor
  · have h1 := load_scans_items st us r1 ur hu
    have h2 := load_scans_items { st with scans := some (r1.map (hydrateScan us)) }
        us r2 ur' hu
    simp [h1, h2]
  · simp [load_scanners, List.append_assoc]

/-- C1 witness: instantiating the amended statement — a repeated scans
load from the initial registry keeps only the second payload, while a
repeated scanners load keeps both. -/
theorem reload_semantics_per_kind_witness :
    (((load_scans (load_scans nessusInit (.items [rawScanEx]) (.items [])).2
        (.items []) (.items [])).2).scans = some [])
    ∧ (((load_scanners (load_scanners nessusInit (.items [rawScannerEx1])).2
        (.items [rawScannerEx2])).2).scanners
        = [hydrateScanner rawScannerEx1, hydrateScanner rawScannerEx2]) :=
  reload_semantics_per_kind nessusInit [] [rawScanEx] [] (.items []) (.items [])
    [rawScannerEx1] [rawScannerEx2] rfl

/-- C2 counterexample: with a transport whose first send attempt raises
a stale-connection condition and whose re-issued attempt succeeds with
a 200/`"payload"` response, `_request` does not return the successful
result: the retry's return value is discarded in the handler and the
trailing `getresponse()` then fails on the already-drained connection,
so the call raises `ResponseNotReady` — and with two consecutive stale
conditions followed by a success the handler re-authenticates twice,
not exactly once, instead of propagating a fatal error at the second
stale signal. -/
theorem stale_retry_counterexample :
    pyRequest sessionInit none [.stale, .sent]
        { resps := [{ status := 200, body := "payload" }], pending := 0,
          relogins := 0, sentHeaders := [] }
      = (.error .responseNotReady,
         { resps := [], pending := 0, relogins := 1,
           sentHeaders := [sessionInit.headers] })
    ∧ (pyRequest sessionInit none [.stale, .stale, .sent]
        { resps := [{ status := 200, body := "payload" }], pending := 0,
          relogins := 0, sentHeaders := [] }).2.relogins = 2 :=
  ⟨rfl, rfl⟩

/-- C2 amended: on a stale-connection signal `_request` re-authenticates
and recursively re-issues the request with no retry bound, but the
re-issued call's return value is discarded and `getresponse()` is then
invoked again on the drained connection, so whenever the retried
exchange would have succeeded the original call instead raises
`ResponseNotReady`, with the wire state (including the extra
re-authentication) left behind by the retry. -/
theorem stale_retry_discards_result :
    ∀ (sess : Session) (o : Option (List (String × String)))
      (rest : List SendOutcome) (w : WireState) (b : String) (w2 : WireState),
      pyRequest sess (some sess.headers) rest
          { w with pending := 0, relogins := w.relogins + 1 } = (.ok b, w2) →
      pyRequest sess o (.stale :: rest) w = (.error .responseNotReady, w2) := by
  intro sess o rest w b w2 h
  have hp : w2.pending = 0 := pyRequest_ok_pending sess rest (some sess.headers) _ rfl b w2 h
  rw [pyRequest, h]
  simp [getresponse, hp]

/-- C2 witness: instantiating the amended statement at a one-retry
script whose re-issued exchange succeeds. -/
theorem stale_retry_discards_result_witness :
    pyRequest sessionInit none [.stale, .sent]
        { resps := [{ status := 200, body := "ok" }], pending := 0,
          relogins := 0, sentHeaders := [] }
      = (.error .responseNotReady,
         { resps := [], pending := 0, relogins := 1,
           sentHeaders := [sessionInit.headers] }) :=
  stale_retry_discards_result sessionInit none [.sent]
    { resps := [{ status := 200, body := "ok" }], pending := 0,
      relogins := 0, sentHeaders := [] } "ok"
    { resps := [], pending := 0, relogins := 1,
      sentHeaders := [sessionInit.headers] } rfl

/-- C3 counterexample: after a successful login stored the token
`tok`, `logout` completes its session-termination call and returns
`True` — but the `X-Cookie` header still carries `token=tok` in the
resulting session, and the next request is sent with that old token in
its headers and succeeds normally, instead of failing with a
not-authenticated error. -/
theorem logout_token_kept_counterexample :
    (logout sessLoggedIn [.sent]
        { resps := [{ status := 200, body := "" }], pending := 0,
          relogins := 0, sentHeaders := [] })
      = (.ok true, sessLoggedIn,
         { resps := [], pending := 0, relogins := 0,
           sentHeaders := [sessLoggedIn.headers] })
    ∧ getHeader sessLoggedIn.headers "X-Cookie" = some "token=tok"
    ∧ (pyRequest sessLoggedIn none [.sent]
        { resps := [{ status := 200, body := "data" }], pending := 0,
          relogins := 0, sentHeaders := [] }).2.sentHeaders
      = [[("Content-type", "application/json"),
          ("Accept", "application/json"), ("X-Cookie", "token=tok")]] :=
  ⟨rfl, rfl, rfl⟩

/-- C3 amended: `logout` issues the session-termination call and
returns `True`, but never assigns any session field: the stored
headers (including the bearer token) and the user survive unchanged,
and a subsequent request is sent with exactly the stored header set —
the client has no not-authenticated check at all. -/
theorem logout_leaves_session_unchanged :
    ∀ (sess : Session) (sends : List SendOutcome) (w : WireState),
      (logout sess sends w).2.1 = sess
      ∧ (∀ w' : WireState, (pyRequest sess none [.sent] w').2.sentHeaders
            = w'.sentHeaders ++ [sess.headers]) := by
  intro sess sends w
  constructor
  · rcases h : pyRequest sess none sends w with ⟨r, w''⟩
    cases r <;> simp [logout, h]
  · intro w'
    obtain ⟨resps, pending, relogins, sh⟩ := w'
    rw [pyRequest]
    unfold getresponse
    rcases resps with _ | ⟨r, rs⟩
    · simp
    · by_cases hst : (r.status == 200) = true <;> simp [hst]

/-- C7 counterexample: a `load_agents` run over a registry holding two
scanners, whose first per-scanner call succeeds with one agent and
whose second call reports a server error, raises `NessusAPIError` —
yet the agents collection has already been mutated with the first
scanner's record, so a failed load does not leave every existing
collection unchanged. -/
theorem load_agents_partial_mutation_counterexample :
    load_agents stTwoScanners [.items [rawAgentEx], .err "invalid token"]
      = (.error (.apiError "invalid token"),
         { stTwoScanners with agents := [hydrateAgent scannerEx1.id rawAgentEx] }) :=
  rfl

/-- C7 amended: for the single-call loaders (scans, templates,
scanners, folders, policies, users) a server-reported error raised by
the API call leaves the registry state completely unchanged, because
the call precedes every mutation; but the per-scanner loaders issue one
call per loaded scanner, and an API error on a later call aborts the
load with the records appended by the earlier calls already in place. -/
theorem apiError_load_mutation_semantics :
    ∀ (st : Nessus) (m : String) (ur : LoadResp RawUser),
      load_scans st (.err m) ur = (.error (.apiError m), st)
      ∧ load_templates st (.err m) = (.error (.apiError m), st)
      ∧ load_scanners st (.err m) = (.error (.apiError m), st)
      ∧ load_folders st (.err m) = (.error (.apiError m), st)
      ∧ load_policies st (.err m) = (.error (.apiError m), st)
      ∧ load_users st (.err m) = (.error (.apiError m), st)
      ∧ (∀ (a b : Scanner) (raws : List RawAgent),
          st.scanners = [a, b] →
          load_agents st [.items raws, .err m]
            = (.error (.apiError m),
               { st with agents := st.agents ++ raws.map (hydrateAgent a.id) })) := by
  intro st m ur
  refine ⟨rfl, rfl, rfl, rfl, rfl, rfl, ?_⟩
  intro a b raws h
  simp [load_agents, load_agents_go, h]

/-- C7 witness: instantiating the amended statement at the two-scanner
registry with an empty first payload and a failing second call. -/
theorem apiError_load_mutation_semantics_witness :
    load_agents stTwoScanners [.items [], .err "boom"]
      = (.error (.apiError "boom"),
         { stTwoScanners with
             agents := stTwoScanners.agents ++ List.map (hydrateAgent scannerEx1.id) [] }) :=
  (apiError_load_mutation_semantics stTwoScanners "boom" (.items [])).2.2.2.2.2.2
    scannerEx1 scannerEx2 [] rfl

/-- C10: the top-level `load` chains the eleven sub-loads in the fixed
source order — properties, mail, proxy, scanners, agents, agent
groups, policies, scans, folders, templates, users — threading each
sub-load's post state into the next one; when no sub-load raises, the
returned flag is exactly the conjunction of the per-sub-load success
flags (so `load` reports success iff every sub-load succeeded) and the
final state is the last sub-load's state, keeping every earlier
collection as loaded (no rollback); and when a sub-load raises (shown
for scans), `load` propagates the error with the state mutated by the
earlier sub-loads left intact. -/
theorem load_order_and_success :
    (∀ (st : Nessus) (R : LoadBundle)
        (b0 b1 b2 b3 b4 b5 b6 b7 b8 b9 b10 : Bool)
        (s0 s1 s2 s3 s4 s5 s6 s7 s8 s9 s10 : Nessus),
        load_properties st R.propsResp = (.ok b0, s0) →
        load_mail s0 R.mailResp = (.ok b1, s1) →
        load_proxy s1 R.proxyResp = (.ok b2, s2) →
        load_scanners s2 R.scannersResp = (.ok b3, s3) →
        load_agents s3 R.agentsResps = (.ok b4, s4) →
        load_agentgroups s4 R.agentgroupsResps = (.ok b5, s5) →
        load_policies s5 R.policiesResp = (.ok b6, s6) →
        load_scans s6 R.scansResp R.scansUsersResp = (.ok b7, s7) →
        load_folders s7 R.foldersResp = (.ok b8, s8) →
        load_templates s8 R.templatesResp = (.ok b9, s9) →
        load_users s9 R.usersResp = (.ok b10, s10) →
        load st R
          = (.ok (b0 && b1 && b2 && b3 && b4 && b5 && b6 && b7 && b8 && b9 && b10),
             s10))
    ∧ (∀ (st : Nessus) (R : LoadBundle)
        (b0 b1 b2 b3 b4 b5 b6 : Bool) (s0 s1 s2 s3 s4 s5 s6 : Nessus)
        (e : PyErr) (s7 : Nessus),
        load_properties st R.propsResp = (.ok b0, s0) →
        load_mail s0 R.mailResp = (.ok b1, s1) →
        load_proxy s1 R.proxyResp = (.ok b2, s2) →
        load_scanners s2 R.scannersResp = (.ok b3, s3) →
        load_agents s3 R.agentsResps = (.ok b4, s4) →
        load_agentgroups s4 R.agentgroupsResps = (.ok b5, s5) →
        load_policies s5 R.policiesResp = (.ok b6, s6) →
        load_scans s6 R.scansResp R.scansUsersResp = (.error e, s7) →
        load st R = (.error e, s7)) := by
  constructor
  · intro st R b0 b1 b2 b3 b4 b5 b6 b7 b8 b9 b10
      s0 s1 s2 s3 s4 s5 s6 s7 s8 s9 s10
      h0 h1 h2 h3 h4 h5 h6 h7 h8 h9 h10
    simp [load, loadStep, h0, h1, h2, h3, h4, h5, h6, h7, h8, h9, h10,
      Bool.and_assoc]
  · intro st R b0 b1 b2 b3 b4 b5 b6 s0 s1 s2 s3 s4 s5 s6 e s7
      h0 h1 h2 h3 h4 h5 h6 h7
    simp [load, loadStep, h0, h1, h2, h3, h4, h5, h6, h7]

/-- C10 witness: a complete all-success run over the sample bundle from
the initial registry yields success, with every collection replaced by
its hydration — the agents keyed by the scanner loaded earlier in the
same run, and the scan's owner unset because the users sub-load runs
after the scans sub-load. -/
theorem load_order_and_success_witness :
    load nessusInit bundleEx
      = (.ok true,
         { scanners := [hydrateScanner rawScannerEx1],
           templates := [hydrateTemplate rawTemplateEx],
           folders := [hydrateFolder rawFolderEx],
           policies := [hydratePolicy rawPolicyEx],
           agents := [hydrateAgent scannerEx1.id rawAgentEx],
           agentgroups := [hydrateAgentGroup rawAgentGroupEx],
           scans := some [hydrateScan [] rawScanEx],
           users := some [hydrateUser rawUserEx],
           mail := some mailEx, proxy := some proxyEx,
           props := some propsEx }) :=
  load_order_and_success.1 nessusInit bundleEx
    true true true true true true true true true true true
    _ _ _ _ _ _ _ _ _ _ _
    rfl rfl rfl rfl rfl rfl rfl rfl rfl rfl rfl

end Pynessus
